import Mathlib

/-!
Verification development for the Autonomous Integration Ecosystem (AIE)
communication core (`aiemodule_interface.py` and the module registry the
specification describes).

Modelling conventions (shallow embedding):

- Python runtime values that can flow through an (unvalidated) dataclass
  field are modelled by the dynamic type `PyVal`: JSON-representable values
  (`null`, booleans, integers, strings, lists, string-keyed dicts) plus the
  two non-JSON object kinds the module manipulates, `MessageType` enum
  members and `datetime` instances.  Python dataclasses perform no runtime
  validation, so every field of `Message` is a `PyVal`.
- `json.dumps`/`json.loads` are modelled at the abstract-syntax level: the
  wire value of a successfully serialized message is the `PyVal` tree
  itself, guarded by `serializable` (which is exactly the check `json.dumps`
  performs, raising `TypeError` on non-JSON objects).  The argument of
  `from_json` is an `Option PyVal`: `none` stands for a string that is not
  well-formed JSON (`json.loads` raises `JSONDecodeError`), `some v` for a
  string parsing to the value `v`.
- `datetime` instances are modelled by their canonical ISO rendering: an
  abstract instant is a string accepted by `validIso`, `isoformat` returns
  that string, and `datetime.fromisoformat` inverts it, failing on any
  other string (`ValueError`) or on a non-string argument (`TypeError`).
  Nothing below depends on the concrete shape of ISO-8601 text, only on
  the round-trip and on the existence of rejected strings.
- Calls to `uuid.uuid4()` and `datetime.utcnow()` are modelled by explicit
  parameters `freshId` and `now` (the code's only uses are as default
  values).
- `routing_weight` arithmetic is modelled over exact rationals.
-/

namespace AIE

/-- Status enumeration for AI modules (class `ModuleStatus` in the source). -/
inductive ModuleStatus where
  | INITIALIZING
  | READY
  | BUSY
  | ERROR
  | OFFLINE
  | LEARNING
  | INTEGRATING
deriving DecidableEq

/-- Types of messages exchanged between modules (class `MessageType`). -/
inductive MessageType where
  | QUERY
  | RESPONSE
  | COMMAND
  | STATUS_UPDATE
  | CAPABILITY_ANNOUNCE
  | ERROR
  | FEEDBACK
  | LEARNING_UPDATE
deriving DecidableEq

/-- The `.value` string of each `MessageType` member, as declared in the enum. -/
def MessageType.value : MessageType → String
  | .QUERY => "query"
  | .RESPONSE => "response"
  | .COMMAND => "command"
  | .STATUS_UPDATE => "status_update"
  | .CAPABILITY_ANNOUNCE => "capability_announce"
  | .ERROR => "error"
  | .FEEDBACK => "feedback"
  | .LEARNING_UPDATE => "learning_update"

/-- Value-to-member lookup performed by the enum call `MessageType(s)`. -/
def MessageType.fromValue (s : String) : Option MessageType :=
  if s = "query" then some .QUERY
  else if s = "response" then some .RESPONSE
  else if s = "command" then some .COMMAND
  else if s = "status_update" then some .STATUS_UPDATE
  else if s = "capability_announce" then some .CAPABILITY_ANNOUNCE
  else if s = "error" then some .ERROR
  else if s = "feedback" then some .FEEDBACK
  else if s = "learning_update" then some .LEARNING_UPDATE
  else none

/-- Strings accepted by the model of `datetime.fromisoformat`.  The model
takes nonempty digit strings as the canonical renderings of abstract
instants; only the round-trip with `isoformat` and the existence of
rejected strings matter below. -/
def validIso (s : String) : Bool :=
  s.data.all (fun c => c.isDigit) && !s.data.isEmpty

/-- An abstract `datetime` instant, identified by its ISO rendering. -/
def DateTime := { s : String // validIso s = true }

/-- The `isoformat()` rendering of an instant. -/
def DateTime.isoformat (d : DateTime) : String := d.val

/-- Dynamic Python values reachable by the module's data flow. -/
inductive PyVal where
  | null
  | bool (b : Bool)
  | int (n : Int)
  | str (s : String)
  | list (xs : List PyVal)
  | dict (kvs : List (String × PyVal))
  | enumMT (t : MessageType)
  | dt (d : DateTime)

/-- Exceptions the modelled code can raise. -/
inductive PyErr where
  | typeError
  | valueError
  | attributeError
  | jsonDecodeError
deriving DecidableEq

mutual

/-- Whether `json.dumps` accepts a value (it raises `TypeError` on enum
members, `datetime` objects and any other non-JSON object). -/
def serializable : PyVal → Bool
  | .null => true
  | .bool _ => true
  | .int _ => true
  | .str _ => true
  | .list xs => serializableList xs
  | .dict kvs => serializableKVs kvs
  | .enumMT _ => false
  | .dt _ => false

/-- Serializability of every element of a list. -/
def serializableList : List PyVal → Bool
  | [] => true
  | x :: xs => serializable x && serializableList xs

/-- Serializability of every value of a string-keyed dict. -/
def serializableKVs : List (String × PyVal) → Bool
  | [] => true
  | kv :: kvs => serializable kv.2 && serializableKVs kvs

end

/-- Python `data.get(k, dflt)` on a string-keyed dict. -/
def dictGet (kvs : List (String × PyVal)) (k : String) (dflt : PyVal) : PyVal :=
  match kvs.find? (fun kv => kv.1 == k) with
  | some kv => kv.2
  | none => dflt

/-- Attribute access `x.value`: defined on enum members, raises
`AttributeError` on everything else the module can hold. -/
def pyEnumValue : PyVal → Except PyErr PyVal
  | .enumMT t => .ok (.str t.value)
  | _ => .error .attributeError

/-- Method call `x.isoformat()`: defined on `datetime` instances. -/
def pyIsoformat : PyVal → Except PyErr PyVal
  | .dt d => .ok (.str d.isoformat)
  | _ => .error .attributeError

/-- The enum call `MessageType(v)`: returns the member with value `v`,
raises `ValueError` for hashable non-members and `TypeError` for
unhashable arguments (lists, dicts). -/
def pyCallMessageType : PyVal → Except PyErr MessageType
  | .str s =>
      match MessageType.fromValue s with
      | some t => .ok t
      | none => .error .valueError
  | .list _ => .error .typeError
  | .dict _ => .error .typeError
  | _ => .error .valueError

/-- The call `datetime.fromisoformat(v)`: parses a valid ISO string,
raises `ValueError` on other strings and `TypeError` on non-strings. -/
def pyFromIsoformat : PyVal → Except PyErr DateTime
  | .str s =>
      if h : validIso s = true then .ok ⟨s, h⟩ else .error .valueError
  | _ => .error .typeError

/-- Universal message format for inter-module communication (dataclass
`Message`).  The dataclass performs no runtime validation, so each field
holds an arbitrary dynamic value. -/
structure Message where
  message_id : PyVal
  sender_id : PyVal
  receiver_id : PyVal
  message_type : PyVal
  timestamp : PyVal
  payload : PyVal
  metadata : PyVal
  priority : PyVal
  requires_response : PyVal
  response_to : PyVal

/-- The dataclass defaults: `message_id` a fresh UUID, empty sender and
receiver, type `QUERY`, `utcnow()` timestamp, empty payload and metadata,
priority 1, `requires_response = False`, `response_to = None`. -/
def Message.mkDefault (freshId : String) (now : DateTime) : Message :=
  { message_id := .str freshId
    sender_id := .str ""
    receiver_id := .str ""
    message_type := .enumMT .QUERY
    timestamp := .dt now
    payload := .dict []
    metadata := .dict []
    priority := .int 1
    requires_response := .bool false
    response_to := .null }

/-- Method `Message.to_json`: builds the ten-field dict (reading
`message_type.value` and `timestamp.isoformat()`, either of which raises
`AttributeError` on a value of the wrong kind) and serializes it;
`json.dumps` raises `TypeError` if any entry is not JSON-serializable.
The `except` clause logs and re-raises, so every failure propagates. -/
def Message.to_json (m : Message) : Except PyErr PyVal := do
  let mt ← pyEnumValue m.message_type
  let ts ← pyIsoformat m.timestamp
  let data : PyVal := .dict
    [("message_id", m.message_id),
     ("sender_id", m.sender_id),
     ("receiver_id", m.receiver_id),
     ("message_type", mt),
     ("timestamp", ts),
     ("payload", m.payload),
     ("metadata", m.metadata),
     ("priority", m.priority),
     ("requires_response", m.requires_response),
     ("response_to", m.response_to)]
  if serializable data then .ok data else .error .typeError

/-- Classmethod `Message.from_json`.  The argument models the result of
`json.loads`: `none` for malformed JSON (`JSONDecodeError`), `some v`
for a string parsing to `v`; `data.get` on a non-dict raises
`AttributeError`.  Each field is read with `data.get` and its dataclass
default; `MessageType(...)` and `datetime.fromisoformat(...)` are the
only calls that can fail on a dict input.  The `except` clause logs and
re-raises, so every failure propagates. -/
def Message.from_json (input : Option PyVal) (freshId : String) (now : DateTime) :
    Except PyErr Message :=
  match input with
  | none => .error .jsonDecodeError
  | some (.dict kvs) => do
      let mt ← pyCallMessageType (dictGet kvs "message_type" (.str "query"))
      let ts ← pyFromIsoformat (dictGet kvs "timestamp" (.str now.isoformat))
      .ok { message_id := dictGet kvs "message_id" (.str freshId)
            sender_id := dictGet kvs "sender_id" (.str "")
            receiver_id := dictGet kvs "receiver_id" (.str "")
            message_type := .enumMT mt
            timestamp := .dt ts
            payload := dictGet kvs "payload" (.dict [])
            metadata := dictGet kvs "metadata" (.dict [])
            priority := dictGet kvs "priority" (.int 1)
            requires_response := dictGet kvs "requires_response" (.bool false)
            response_to := dictGet kvs "response_to" .null }
  | some _ => .error .attributeError

/-! Module registry.  The registry implementation is not among the source
files (only the package docstring and the specification describe it), so
the operations below are modelled from the spec, section 4.1. -/

/-- Errors of the registry operations (spec section 7 taxonomy). -/
inductive RegErr where
  | DuplicateRegistration
  | UnknownModule
  | InvalidTransition
deriving DecidableEq

/-- Modelled from the spec: a Module Record as described in section 3
(the registry implementation is missing from the source tree).  The
metrics sub-record is omitted: no claim mentions it. -/
structure ModuleRecord where
  module_id : String
  name : String
  version : String
  status : ModuleStatus
  capabilities : List String
  routing_weight : ℚ

/-- Modelled from the spec: the registry's record store, newest first. -/
abbrev Registry := List ModuleRecord

/-- Modelled from the spec: `resolve(receiver_id)` returns the Module
Record or nothing (`NotFound`). -/
def resolve (reg : Registry) (mid : String) : Option ModuleRecord :=
  reg.find? (fun r => r.module_id == mid)

/-- Modelled from the spec: `register` creates a Module Record in status
`initializing` with the default routing weight 1.0, failing with
`DuplicateRegistration` only when the supplied identity is already
registered and active (not offline). -/
def register (reg : Registry) (mid nm ver : String) (caps : List String) :
    Except RegErr Registry :=
  match resolve reg mid with
  | some r =>
      if r.status = .OFFLINE then
        .ok ({ module_id := mid, name := nm, version := ver,
               status := .INITIALIZING, capabilities := caps,
               routing_weight := 1 } :: reg)
      else .error .DuplicateRegistration
  | none =>
      .ok ({ module_id := mid, name := nm, version := ver,
             status := .INITIALIZING, capabilities := caps,
             routing_weight := 1 } :: reg)

/-- Modelled from the spec: the legal status transitions of section 4.1:
`initializing→ready`, `ready↔busy`, `ready↔learning`, `ready↔integrating`,
any non-terminal state `→error`, `error→ready`, any state `→offline`;
everything else is rejected. -/
def legalTransition : ModuleStatus → ModuleStatus → Bool
  | _, .OFFLINE => true
  | .OFFLINE, _ => false
  | _, .ERROR => true
  | .INITIALIZING, .READY => true
  | .READY, .BUSY => true
  | .BUSY, .READY => true
  | .READY, .LEARNING => true
  | .LEARNING, .READY => true
  | .READY, .INTEGRATING => true
  | .INTEGRATING, .READY => true
  | .ERROR, .READY => true
  | _, _ => false

/-- Replace the status of the record with the given identity. -/
def setStatus (reg : Registry) (mid : String) (st : ModuleStatus) : Registry :=
  reg.map (fun r => if r.module_id == mid then { r with status := st } else r)

/-- Modelled from the spec: `update_status` validates the requested
transition against the state machine and fails with `InvalidTransition`
otherwise; `UnknownModule` when the identity is not registered. -/
def update_status (reg : Registry) (mid : String) (st : ModuleStatus) :
    Except RegErr Registry :=
  match resolve reg mid with
  | none => .error .UnknownModule
  | some r =>
      if legalTransition r.status st then .ok (setStatus reg mid st)
      else .error .InvalidTransition

/-- Modelled from the spec: `announce_ready` transitions
`initializing → ready`, failing with `UnknownModule` when the identity is
not registered and `InvalidTransition` when the module is not in
`initializing`. -/
def announce_ready (reg : Registry) (mid : String) : Except RegErr Registry :=
  match resolve reg mid with
  | none => .error .UnknownModule
  | some r =>
      if r.status = .INITIALIZING then .ok (setStatus reg mid .READY)
      else .error .InvalidTransition

/-- Modelled from the spec: the clamp of a routing weight to the interval
[0.01, 10.0] applied by `apply_weight_delta`. -/
def clampWeight (w : ℚ) : ℚ :=
  if w < 1 / 100 then 1 / 100 else if 10 < w then 10 else w

/-- Modelled from the spec: `apply_weight_delta`, the sole mutation path
for `routing_weight`; the result of adding the delta is clamped to
[0.01, 10.0].  An unknown identity leaves the registry unchanged. -/
def apply_weight_delta (reg : Registry) (mid : String) (d : ℚ) : Registry :=
  reg.map (fun r =>
    if r.module_id == mid then
      { r with routing_weight := clampWeight (r.routing_weight + d) }
    else r)

/-- One registry operation, for reasoning about operation sequences. -/
inductive RegOp where
  | registerOp (mid nm ver : String) (caps : List String)
  | announceReady (mid : String)
  | updateStatus (mid : String) (st : ModuleStatus)
  | applyDelta (mid : String) (d : ℚ)

/-- Run one registry operation; a failing operation leaves the registry
unchanged (its error is returned to the caller, spec section 7). -/
def runOp (reg : Registry) : RegOp → Registry
  | .registerOp mid nm ver caps =>
      match register reg mid nm ver caps with
      | .ok reg' => reg'
      | .error _ => reg
  | .announceReady mid =>
      match announce_ready reg mid with
      | .ok reg' => reg'
      | .error _ => reg
  | .updateStatus mid st =>
      match update_status reg mid st with
      | .ok reg' => reg'
      | .error _ => reg
  | .applyDelta mid d => apply_weight_delta reg mid d

/-- Run a sequence of registry operations. -/
def runOps (reg : Registry) (ops : List RegOp) : Registry :=
  ops.foldl runOp reg

/-- Operations that do not explicitly target the status of the given
module: anything except `announce_ready` and `update_status` on it. -/
def statusUntouched (mid : String) : RegOp → Bool
  | .announceReady m => m != mid
  | .updateStatus m _ => m != mid
  | _ => true

/-! The `AIModule` base class (source, `AIModule.__init__`). -/

/-- State of an `AIModule` instance after `__init__` runs, mirroring the
fields the constructor assigns.  The metrics dict is carried verbatim;
its `avg_response_time` of `0.0` is modelled as the integer 0 and
`last_activity` as the ISO rendering of the construction instant. -/
structure AIModuleState where
  module_id : String
  module_name : String
  version : String
  status : ModuleStatus
  capabilities : PyVal
  dependencies : List String
  integrated_modules : List String
  metrics : PyVal

/-- The field assignments of `AIModule.__init__` (source lines 114-147):
a newly constructed module records its identity and starts in status
`INITIALIZING` with empty capability and dependency sets.  The abstract
subclass hook `_initialize_module` and the capability announcement that
follow are outside the assignments modelled here. -/
def AIModule.init (module_id module_name version : String) (now : DateTime) :
    AIModuleState :=
  { module_id := module_id
    module_name := module_name
    version := version
    status := .INITIALIZING
    capabilities := .dict []
    dependencies := []
    integrated_modules := []
    metrics := .dict
      [("total_messages_sent", .int 0),
       ("total_messages_received", .int 0),
       ("error_count", .int 0),
       ("avg_response_time", .int 0),
       ("last_activity", .str now.isoformat)] }

/-! A small operational layer over the whole embedding, used to state
frame properties about envelopes: the system state holds every envelope
created so far together with the registry. -/

/-- Global state: the envelopes created so far and the registry. -/
structure SysState where
  messages : List Message
  registry : Registry

/-- One system operation over envelopes or the registry. -/
inductive SysOp where
  | mkMsg (m : Message)
  | decode (input : Option PyVal) (freshId : String) (now : DateTime)
  | encode (m : Message)
  | regOp (op : RegOp)

/-- Step function: constructing or successfully decoding an envelope
appends a new envelope; `to_json` only reads its receiver; registry
operations leave the envelope store untouched.  No operation assigns to
a field of an existing envelope. -/
def SysState.step (s : SysState) : SysOp → SysState
  | .mkMsg m => { s with messages := s.messages ++ [m] }
  | .decode input f n =>
      match Message.from_json input f n with
      | .ok m => { s with messages := s.messages ++ [m] }
      | .error _ => s
  | .encode _ => s
  | .regOp op => { s with registry := runOp s.registry op }

/-! Shape predicates describing the types the dataclass annotations
declare for each field. -/

/-- A Python `str`. -/
def isStrV : PyVal → Bool
  | .str _ => true
  | _ => false

/-- A `MessageType` enum member. -/
def isEnumV : PyVal → Bool
  | .enumMT _ => true
  | _ => false

/-- A `datetime` instance. -/
def isDtV : PyVal → Bool
  | .dt _ => true
  | _ => false

/-- A string-keyed Python dict. -/
def isDictV : PyVal → Bool
  | .dict _ => true
  | _ => false

/-- A Python `int`. -/
def isIntV : PyVal → Bool
  | .int _ => true
  | _ => false

/-- A Python `bool`. -/
def isBoolV : PyVal → Bool
  | .bool _ => true
  | _ => false

/-- `None` or a `str` (an `Optional[str]`). -/
def isNoneOrStrV : PyVal → Bool
  | .null => true
  | .str _ => true
  | _ => false

/-- A message whose every field has the type its dataclass annotation
declares. -/
def WellTypedMsg (m : Message) : Bool :=
  isStrV m.message_id && isStrV m.sender_id && isStrV m.receiver_id &&
  isEnumV m.message_type && isDtV m.timestamp &&
  isDictV m.payload && isDictV m.metadata &&
  isIntV m.priority && isBoolV m.requires_response &&
  isNoneOrStrV m.response_to

/-- The ten envelope field names of the wire format. -/
def envelopeKeys : List String :=
  ["message_id", "sender_id", "receiver_id", "message_type", "timestamp",
   "payload", "metadata", "priority", "requires_response", "response_to"]

/-- Whether a wire value is a JSON object carrying all ten envelope
fields. -/
def hasAllTenKeys : PyVal → Bool
  | .dict kvs => envelopeKeys.all (fun k => (kvs.find? (fun kv => kv.1 == k)).isSome)
  | _ => false

/-- The binding of a key in a string-keyed dict, if any (key presence). -/
def lookupKey (kvs : List (String × PyVal)) (k : String) :
    Option (String × PyVal) :=
  kvs.find? (fun kv => kv.1 == k)

/-- A sample instant used by concrete witnesses below. -/
def sampleNow : DateTime := ⟨"20240101", by decide⟩

/-- A concrete well-typed message with serializable payload and metadata,
used by the round-trip witness. -/
def c1Msg : Message :=
  { message_id := .str "m-1"
    sender_id := .str "alice"
    receiver_id := .str "bob"
    message_type := .enumMT .COMMAND
    timestamp := .dt sampleNow
    payload := .dict [("task", .str "run"), ("count", .int 3)]
    metadata := .dict [("trace", .int 7)]
    priority := .int 5
    requires_response := .bool true
    response_to := .null }

/-- The wire value `c1Msg.to_json` produces. -/
def c1Wire : PyVal :=
  .dict
    [("message_id", .str "m-1"),
     ("sender_id", .str "alice"),
     ("receiver_id", .str "bob"),
     ("message_type", .str "command"),
     ("timestamp", .str "20240101"),
     ("payload", .dict [("task", .str "run"), ("count", .int 3)]),
     ("metadata", .dict [("trace", .int 7)]),
     ("priority", .int 5),
     ("requires_response", .bool true),
     ("response_to", .null)]

/-- A concrete message whose payload holds a non-JSON-serializable value
(a datetime object), used by the serialization-failure witness. -/
def c10Bad : Message :=
  { Message.mkDefault "m-2" sampleNow with
    payload := .dict [("when", .dt sampleNow)] }

theorem isStrV_shape {v : PyVal} (h : isStrV v = true) : ∃ s, v = .str s := by
  cases v <;> simp_all [isStrV]

theorem isEnumV_shape {v : PyVal} (h : isEnumV v = true) : ∃ t, v = .enumMT t := by
  cases v <;> simp_all [isEnumV]

theorem isDtV_shape {v : PyVal} (h : isDtV v = true) : ∃ d, v = .dt d := by
  cases v <;> simp_all [isDtV]

theorem isDictV_shape {v : PyVal} (h : isDictV v = true) : ∃ kvs, v = .dict kvs := by
  cases v <;> simp_all [isDictV]

theorem isIntV_shape {v : PyVal} (h : isIntV v = true) : ∃ n, v = .int n := by
  cases v <;> simp_all [isIntV]

theorem isBoolV_shape {v : PyVal} (h : isBoolV v = true) : ∃ b, v = .bool b := by
  cases v <;> simp_all [isBoolV]

theorem isNoneOrStrV_shape {v : PyVal} (h : isNoneOrStrV v = true) :
    v = .null ∨ ∃ s, v = .str s := by
  cases v <;> simp_all [isNoneOrStrV]

/-- The enum call inverts `.value` on every member. -/
theorem MessageType.fromValue_value (t : MessageType) :
    MessageType.fromValue t.value = some t := by
  cases t <;> rfl

/-- Parse of a valid ISO rendering: the round-trip with `isoformat`. -/
theorem pyFromIsoformat_val (d : DateTime) :
    pyFromIsoformat (.str d.val) = .ok d := by
  show (if h : validIso d.val = true then Except.ok ⟨d.val, h⟩
        else Except.error PyErr.valueError) = Except.ok d
  rw [dif_pos d.prop]
  rfl

/-- The enum call inverts `.value` as a `PyVal` computation. -/
theorem pyCallMessageType_value (t : MessageType) :
    pyCallMessageType (.str t.value) = .ok t := by
  cases t <;> rfl

example :
    Message.from_json (some (.dict [])) "f" sampleNow =
      .ok (Message.mkDefault "f" sampleNow) := rfl

example :
    Message.from_json (some (.dict [("message_type", .str "bogus")])) "f" sampleNow =
      .error .valueError := rfl

example : Message.from_json none "f" sampleNow = .error .jsonDecodeError := rfl

example :
    (Message.mkDefault "f" sampleNow).to_json =
      .ok (.dict
        [("message_id", .str "f"),
         ("sender_id", .str ""),
         ("receiver_id", .str ""),
         ("message_type", .str "query"),
         ("timestamp", .str "20240101"),
         ("payload", .dict []),
         ("metadata", .dict []),
         ("priority", .int 1),
         ("requires_response", .bool false),
         ("response_to", .null)]) := rfl

/-! Claim theorems. -/

/-- Claim C1: for every Message whose fields have their declared types and
whose payload and metadata are JSON-serializable string-keyed mappings,
decoding the encoding round-trips: `Message.from_json` applied to the wire
value produced by `Message.to_json` returns a message equal to the
original field for field (hence in all of message_id, sender_id,
receiver_id, message_type, timestamp, payload, metadata, priority,
requires_response and response_to), for any fresh UUID and clock reading
supplied to the decoder. -/
theorem c1_encode_decode_roundtrip (m : Message) (j : PyVal)
    (freshId : String) (now : DateTime)
    (hty : WellTypedMsg m = true)
    (hpay : serializable m.payload = true)
    (hmeta : serializable m.metadata = true)
    (henc : m.to_json = .ok j) :
    Message.from_json (some j) freshId now = .ok m := by
  obtain ⟨mid, sid, rid, mt, ts, pl, md, pr, rr, rto⟩ := m
  simp only [WellTypedMsg, Bool.and_eq_true] at hty
  obtain ⟨⟨⟨⟨⟨⟨⟨⟨⟨h1, h2⟩, h3⟩, h4⟩, h5⟩, h6⟩, h7⟩, h8⟩, h9⟩, h10⟩ := hty
  obtain ⟨mids, rfl⟩ := isStrV_shape h1
  obtain ⟨sids, rfl⟩ := isStrV_shape h2
  obtain ⟨rids, rfl⟩ := isStrV_shape h3
  obtain ⟨t, rfl⟩ := isEnumV_shape h4
  obtain ⟨d, rfl⟩ := isDtV_shape h5
  obtain ⟨plk, rfl⟩ := isDictV_shape h6
  obtain ⟨mdk, rfl⟩ := isDictV_shape h7
  obtain ⟨pn, rfl⟩ := isIntV_shape h8
  obtain ⟨rb, rfl⟩ := isBoolV_shape h9
  simp only [serializable] at hpay hmeta
  rcases isNoneOrStrV_shape h10 with h0 | ⟨rs, h0⟩ <;> subst h0 <;>
  · simp only [Message.to_json, pyEnumValue, pyIsoformat, DateTime.isoformat,
      bind, Except.bind, serializable, serializableKVs, hpay, hmeta,
      Bool.and_true, Bool.true_and, if_true] at henc
    obtain rfl := (Except.ok.injEq _ _).mp henc.symm
    simp only [Message.from_json, dictGet, List.find?, bind, Except.bind,
      pyCallMessageType_value, pyFromIsoformat_val]
    simp [pyCallMessageType_value, pyFromIsoformat_val]

/-- Witness for C1: the round-trip evaluated at a concrete message. -/
theorem c1_encode_decode_roundtrip_witness :
    Message.from_json (some c1Wire) "fresh-uuid" sampleNow = .ok c1Msg :=
  c1_encode_decode_roundtrip c1Msg c1Wire "fresh-uuid" sampleNow rfl rfl rfl rfl

/-- Claim C2 counterexample: the well-formed JSON text `\x7b\x7d` parses to
the empty object, which omits every required envelope field; the claim
demands that decoding fail, but `Message.from_json` succeeds and produces
the all-defaults Message. -/
theorem c2_counterexample :
    Message.from_json (some (.dict [])) "fresh-uuid" sampleNow =
      .ok (Message.mkDefault "fresh-uuid" sampleNow) := rfl

/-- Claim C2 (amended): decoding fails when the input string is malformed
JSON (the underlying `json.JSONDecodeError` propagates) or carries an
unknown `message_type` value (`ValueError`); no `MalformedEnvelope` type
exists, and a missing envelope field does not cause failure (it is filled
with a default, see C9).  No Message is produced in the failing cases. -/
theorem c2_amended_decode_failures (input : Option PyVal)
    (freshId : String) (now : DateTime)
    (h : input = none ∨
         ∃ kvs s, input = some (.dict kvs) ∧
           dictGet kvs "message_type" (.str "query") = .str s ∧
           MessageType.fromValue s = none) :
    ∃ e, Message.from_json input freshId now = .error e := by
  rcases h with rfl | ⟨kvs, s, rfl, hget, hval⟩
  · exact ⟨.jsonDecodeError, rfl⟩
  · exact ⟨.valueError, by
      simp [Message.from_json, bind, Except.bind, hget, pyCallMessageType, hval]⟩

/-- Witness for the amended C2 at a concrete malformed input. -/
theorem c2_amended_decode_failures_witness :
    ∃ e, Message.from_json none "fresh-uuid" sampleNow = .error e :=
  c2_amended_decode_failures none "fresh-uuid" sampleNow (Or.inl rfl)

/-- Claim C9 counterexample: a well-formed JSON object on which
`Message.from_json` does not succeed (its `message_type` value is not a
member of the enum), refuting the universal success claim. -/
theorem c9_counterexample :
    Message.from_json (some (.dict [("message_type", .str "bogus")]))
      "fresh-uuid" sampleNow = .error .valueError := rfl

/-- Claim C9 (amended): for every well-formed JSON object whose
`message_type` entry, when present, decodes to an enum member and whose
`timestamp` entry, when present, is a valid ISO string — in particular
the empty object — `Message.from_json` succeeds, substituting a default
for each missing envelope field: the fresh UUID as message_id, empty
sender_id and receiver_id, message_type `query`, the current time as
timestamp, empty payload and metadata, priority 1, requires_response
False and response_to None. -/
theorem c9_amended_defaults (kvs : List (String × PyVal))
    (freshId : String) (now : DateTime) (t : MessageType) (d : DateTime)
    (hmt : pyCallMessageType (dictGet kvs "message_type" (.str "query")) = .ok t)
    (hts : pyFromIsoformat (dictGet kvs "timestamp" (.str now.isoformat)) = .ok d) :
    ∃ m, Message.from_json (some (.dict kvs)) freshId now = .ok m ∧
      (lookupKey kvs "message_id" = none → m.message_id = .str freshId) ∧
      (lookupKey kvs "sender_id" = none → m.sender_id = .str "") ∧
      (lookupKey kvs "receiver_id" = none → m.receiver_id = .str "") ∧
      (lookupKey kvs "message_type" = none → m.message_type = .enumMT .QUERY) ∧
      (lookupKey kvs "timestamp" = none → m.timestamp = .dt now) ∧
      (lookupKey kvs "payload" = none → m.payload = .dict []) ∧
      (lookupKey kvs "metadata" = none → m.metadata = .dict []) ∧
      (lookupKey kvs "priority" = none → m.priority = .int 1) ∧
      (lookupKey kvs "requires_response" = none → m.requires_response = .bool false) ∧
      (lookupKey kvs "response_to" = none → m.response_to = .null) := by
  refine ⟨{ message_id := dictGet kvs "message_id" (.str freshId)
            sender_id := dictGet kvs "sender_id" (.str "")
            receiver_id := dictGet kvs "receiver_id" (.str "")
            message_type := .enumMT t
            timestamp := .dt d
            payload := dictGet kvs "payload" (.dict [])
            metadata := dictGet kvs "metadata" (.dict [])
            priority := dictGet kvs "priority" (.int 1)
            requires_response := dictGet kvs "requires_response" (.bool false)
            response_to := dictGet kvs "response_to" .null },
          ?_, ?_, ?_, ?_, ?_, ?_, ?_, ?_, ?_, ?_, ?_⟩
  · simp [Message.from_json, bind, Except.bind, hmt, hts]
  · intro h
    simp only [lookupKey] at h
    simp [dictGet, h]
  · intro h
    simp only [lookupKey] at h
    simp [dictGet, h]
  · intro h
    simp only [lookupKey] at h
    simp [dictGet, h]
  · intro h
    simp only [lookupKey] at h
    rw [show dictGet kvs "message_type" (.str "query") = .str "query" from by
          simp [dictGet, h]] at hmt
    have : t = .QUERY := by
      have h2 := hmt.symm.trans (pyCallMessageType_value .QUERY)
      exact (Except.ok.inj h2.symm).symm
    simp [this]
  · intro h
    simp only [lookupKey] at h
    rw [show dictGet kvs "timestamp" (.str now.isoformat) = .str now.isoformat from by
          simp [dictGet, h]] at hts
    have : d = now := by
      have h2 := hts.symm.trans (pyFromIsoformat_val now)
      exact (Except.ok.inj h2.symm).symm
    simp [this]
  · intro h
    simp only [lookupKey] at h
    simp [dictGet, h]
  · intro h
    simp only [lookupKey] at h
    simp [dictGet, h]
  · intro h
    simp only [lookupKey] at h
    simp [dictGet, h]
  · intro h
    simp only [lookupKey] at h
    simp [dictGet, h]
  · intro h
    simp only [lookupKey] at h
    simp [dictGet, h]

/-- Witness for the amended C9 at the empty object. -/
theorem c9_amended_defaults_witness :
    ∃ m, Message.from_json (some (.dict [])) "fresh-uuid" sampleNow = .ok m ∧
      (lookupKey [] "message_id" = none → m.message_id = .str "fresh-uuid") ∧
      (lookupKey [] "sender_id" = none → m.sender_id = .str "") ∧
      (lookupKey [] "receiver_id" = none → m.receiver_id = .str "") ∧
      (lookupKey [] "message_type" = none → m.message_type = .enumMT .QUERY) ∧
      (lookupKey [] "timestamp" = none → m.timestamp = .dt sampleNow) ∧
      (lookupKey [] "payload" = none → m.payload = .dict []) ∧
      (lookupKey [] "metadata" = none → m.metadata = .dict []) ∧
      (lookupKey [] "priority" = none → m.priority = .int 1) ∧
      (lookupKey [] "requires_response" = none → m.requires_response = .bool false) ∧
      (lookupKey [] "response_to" = none → m.response_to = .null) :=
  c9_amended_defaults [] "fresh-uuid" sampleNow .QUERY sampleNow rfl rfl

/-- Claim C3 counterexample: the system itself creates (via
`Message.from_json`) a Message whose `response_to` is set while
`requires_response` is True and `message_type` is `query` — the invariant
is violated and creation is not rejected. -/
theorem c3_counterexample :
    Message.from_json
        (some (.dict [("requires_response", .bool true),
                      ("response_to", .str "orig-1")]))
        "fresh-uuid" sampleNow =
      .ok { Message.mkDefault "fresh-uuid" sampleNow with
            requires_response := .bool true, response_to := .str "orig-1" } ∧
    ({ Message.mkDefault "fresh-uuid" sampleNow with
       requires_response := .bool true,
       response_to := .str "orig-1" } : Message).response_to ≠ .null ∧
    ({ Message.mkDefault "fresh-uuid" sampleNow with
       requires_response := .bool true,
       response_to := .str "orig-1" } : Message).requires_response = .bool true ∧
    ({ Message.mkDefault "fresh-uuid" sampleNow with
       requires_response := .bool true,
       response_to := .str "orig-1" } : Message).message_type =
      .enumMT .QUERY := by
  refine ⟨rfl, ?_, rfl, rfl⟩
  intro h
  exact PyVal.noConfusion h

/-- Claim C3 (amended): the code does not enforce the correlation
invariant at creation: for every combination of a response_to string, a
requires_response flag and a message kind — including combinations the
invariant forbids — a Message carrying exactly that combination is
created (here through `Message.from_json`). -/
theorem c3_amended_no_enforcement (freshId : String) (now : DateTime)
    (rb : Bool) (rs : String) (t : MessageType) :
    ∃ m, Message.from_json
        (some (.dict [("message_type", .str t.value),
                      ("requires_response", .bool rb),
                      ("response_to", .str rs)])) freshId now = .ok m ∧
      m.requires_response = .bool rb ∧ m.response_to = .str rs ∧
      m.message_type = .enumMT t := by
  refine ⟨{ message_id := .str freshId
            sender_id := .str ""
            receiver_id := .str ""
            message_type := .enumMT t
            timestamp := .dt now
            payload := .dict []
            metadata := .dict []
            priority := .int 1
            requires_response := .bool rb
            response_to := .str rs }, ?_, rfl, rfl, rfl⟩
  simp [Message.from_json, bind, Except.bind, dictGet, List.find?,
    DateTime.isoformat, pyCallMessageType_value, pyFromIsoformat_val,
    MessageType.fromValue_value]

/-- Witness for the amended C3 at a concrete forbidden combination. -/
theorem c3_amended_no_enforcement_witness :
    ∃ m, Message.from_json
        (some (.dict [("message_type", .str MessageType.QUERY.value),
                      ("requires_response", .bool true),
                      ("response_to", .str "orig-1")]))
        "fresh-uuid" sampleNow = .ok m ∧
      m.requires_response = .bool true ∧ m.response_to = .str "orig-1" ∧
      m.message_type = .enumMT .QUERY :=
  c3_amended_no_enforcement "fresh-uuid" sampleNow true "orig-1" .QUERY

/-- Claim C5 counterexample: the system itself creates (via
`Message.from_json`) a Message whose priority is the integer 11, outside
the documented range 1-10 — out-of-range priorities are not rejected. -/
theorem c5_counterexample :
    Message.from_json (some (.dict [("priority", .int 11)]))
        "fresh-uuid" sampleNow =
      .ok { Message.mkDefault "fresh-uuid" sampleNow with priority := .int 11 } ∧
    ¬ ((11 : Int) ≤ 10) := by
  exact ⟨rfl, by decide⟩

/-- Claim C5 (amended): priority defaults to the integer 1, which lies in
the documented range 1-10 (10 highest), but the range is not checked at
creation: for every integer p, a Message with priority p is created
(here through `Message.from_json`). -/
theorem c5_amended_priority_unchecked (freshId : String) (now : DateTime)
    (p : Int) :
    (Message.mkDefault freshId now).priority = .int 1 ∧
    (1 ≤ (1 : Int) ∧ (1 : Int) ≤ 10) ∧
    ∃ m, Message.from_json (some (.dict [("priority", .int p)]))
          freshId now = .ok m ∧ m.priority = .int p := by
  refine ⟨rfl, by decide, ⟨{ Message.mkDefault freshId now with
    priority := .int p }, ?_, rfl⟩⟩
  simp [Message.from_json, bind, Except.bind, dictGet, List.find?,
    DateTime.isoformat, pyFromIsoformat_val, pyCallMessageType,
    MessageType.fromValue, Message.mkDefault]

/-- Witness for the amended C5 at the out-of-range priority 0. -/
theorem c5_amended_priority_unchecked_witness :
    (Message.mkDefault "fresh-uuid" sampleNow).priority = .int 1 ∧
    (1 ≤ (1 : Int) ∧ (1 : Int) ≤ 10) ∧
    ∃ m, Message.from_json (some (.dict [("priority", .int 0)]))
          "fresh-uuid" sampleNow = .ok m ∧ m.priority = .int 0 :=
  c5_amended_priority_unchecked "fresh-uuid" sampleNow 0

/-- Claim C4: every system operation leaves every already-created
envelope untouched in all ten fields (the same Message value is still in
the store), and the store only ever grows by appending newly created
envelopes — a correction is a new envelope, never a mutation of an
existing one.  No operation of the repository assigns to a field of an
existing Message. -/
theorem c4_envelopes_immutable (s : SysState) (op : SysOp) (m : Message)
    (h : m ∈ s.messages) :
    m ∈ (s.step op).messages ∧
    ∃ tail, (s.step op).messages = s.messages ++ tail := by
  cases op with
  | mkMsg m2 =>
      exact ⟨by simp [SysState.step, h], ⟨[m2], rfl⟩⟩
  | decode input f n =>
      cases hd : Message.from_json input f n with
      | ok m2 =>
          refine ⟨?_, ⟨[m2], ?_⟩⟩ <;> simp [SysState.step, hd, h]
      | error e =>
          refine ⟨?_, ⟨[], ?_⟩⟩ <;> simp [SysState.step, hd, h]
  | encode m2 => exact ⟨h, ⟨[], by simp [SysState.step]⟩⟩
  | regOp op => exact ⟨h, ⟨[], by simp [SysState.step]⟩⟩

/-- Witness for C4 at a concrete state and operation. -/
theorem c4_envelopes_immutable_witness :
    Message.mkDefault "a" sampleNow ∈
      (SysState.step ⟨[Message.mkDefault "a" sampleNow], []⟩
        (.mkMsg (Message.mkDefault "b" sampleNow))).messages ∧
    ∃ tail, (SysState.step ⟨[Message.mkDefault "a" sampleNow], []⟩
        (.mkMsg (Message.mkDefault "b" sampleNow))).messages =
      [Message.mkDefault "a" sampleNow] ++ tail :=
  c4_envelopes_immutable ⟨[Message.mkDefault "a" sampleNow], []⟩
    (.mkMsg (Message.mkDefault "b" sampleNow))
    (Message.mkDefault "a" sampleNow) (List.mem_singleton.mpr rfl)

/-- Resolution commutes with a record map that preserves identities. -/
theorem resolve_map (f : ModuleRecord → ModuleRecord)
    (hf : ∀ r, (f r).module_id = r.module_id)
    (reg : Registry) (mid : String) :
    resolve (reg.map f) mid = (resolve reg mid).map f := by
  induction reg with
  | nil => rfl
  | cons r rs ih =>
      unfold resolve at *
      simp only [List.map_cons, List.find?]
      rw [hf r]
      cases hb : (r.module_id == mid) with
      | true => rfl
      | false => exact ih

/-- The record found by `resolve` carries the looked-up identity. -/
theorem resolve_id {reg : Registry} {mid : String} {r : ModuleRecord}
    (h : resolve reg mid = some r) : r.module_id = mid := by
  have := List.find?_some h
  exact eq_of_beq this

/-- A successful registration prepends the fresh initializing record. -/
theorem register_ok_shape {reg reg' : Registry} {mid nm ver : String}
    {caps : List String}
    (h : register reg mid nm ver caps = .ok reg') :
    reg' = { module_id := mid, name := nm, version := ver,
             status := .INITIALIZING, capabilities := caps,
             routing_weight := 1 } :: reg := by
  unfold register at h
  cases hrv : resolve reg mid with
  | none =>
      rw [hrv] at h
      dsimp only at h
      exact (Except.ok.inj h).symm
  | some r =>
      rw [hrv] at h
      dsimp only at h
      by_cases hst : r.status = .OFFLINE
      · rw [if_pos hst] at h
        exact (Except.ok.inj h).symm
      · rw [if_neg hst] at h
        exact absurd h (by simp)

/-- Resolving the freshly registered identity finds the new record. -/
theorem resolve_register_ok {reg reg' : Registry} {mid nm ver : String}
    {caps : List String}
    (h : register reg mid nm ver caps = .ok reg') :
    resolve reg' mid =
      some { module_id := mid, name := nm, version := ver,
             status := .INITIALIZING, capabilities := caps,
             routing_weight := 1 } := by
  rw [register_ok_shape h]
  unfold resolve
  simp [List.find?]

/-- One status-preserving step: an operation that does not target the
module's status keeps its resolved record in status `initializing`. -/
theorem statusUntouched_step (reg : Registry) (mid : String) (op : RegOp)
    (hop : statusUntouched mid op = true)
    (r : ModuleRecord) (hr : resolve reg mid = some r)
    (hs : r.status = .INITIALIZING) :
    ∃ r2, resolve (runOp reg op) mid = some r2 ∧ r2.status = .INITIALIZING := by
  have hid : r.module_id = mid := resolve_id hr
  cases op with
  | registerOp mid2 nm ver caps =>
      by_cases hm : mid2 = mid
      · subst hm
        have : register reg mid2 nm ver caps = .error .DuplicateRegistration := by
          unfold register
          rw [hr]
          dsimp only
          rw [if_neg (by rw [hs]; intro hc; exact ModuleStatus.noConfusion hc)]
        simp only [runOp, this]
        exact ⟨r, hr, hs⟩
      · cases hreg : register reg mid2 nm ver caps with
        | error e => simp only [runOp, hreg]; exact ⟨r, hr, hs⟩
        | ok reg2 =>
            refine ⟨r, ?_, hs⟩
            simp only [runOp, hreg]
            rw [register_ok_shape hreg]
            unfold resolve
            rw [List.find?_cons_of_neg _ (by simpa using hm)]
            exact hr
  | announceReady m =>
      have hm : m ≠ mid := by simpa [statusUntouched] using hop
      cases ha : announce_ready reg m with
      | error e => simp only [runOp, ha]; exact ⟨r, hr, hs⟩
      | ok reg2 =>
          refine ⟨r, ?_, hs⟩
          simp only [runOp, ha]
          have hshape : reg2 = setStatus reg m .READY := by
            unfold announce_ready at ha
            cases hrm : resolve reg m with
            | none => rw [hrm] at ha; exact absurd ha (by simp)
            | some rm =>
                rw [hrm] at ha
                dsimp only at ha
                by_cases hi : rm.status = .INITIALIZING
                · rw [if_pos hi] at ha; exact (Except.ok.inj ha).symm
                · rw [if_neg hi] at ha; exact absurd ha (by simp)
          subst hshape
          unfold setStatus
          rw [resolve_map _ (by intro r2; split <;> rfl), hr]
          have hne : r.module_id ≠ m := by
            rw [hid]; exact fun hc => hm hc.symm
          simp [hne]
  | updateStatus m st =>
      have hm : m ≠ mid := by simpa [statusUntouched] using hop
      cases ha : update_status reg m st with
      | error e => simp only [runOp, ha]; exact ⟨r, hr, hs⟩
      | ok reg2 =>
          refine ⟨r, ?_, hs⟩
          simp only [runOp, ha]
          have hshape : reg2 = setStatus reg m st := by
            unfold update_status at ha
            cases hrm : resolve reg m with
            | none => rw [hrm] at ha; exact absurd ha (by simp)
            | some rm =>
                rw [hrm] at ha
                dsimp only at ha
                by_cases hl : legalTransition rm.status st = true
                · rw [if_pos hl] at ha; exact (Except.ok.inj ha).symm
                · rw [if_neg hl] at ha; exact absurd ha (by simp)
          subst hshape
          unfold setStatus
          rw [resolve_map _ (by intro r2; split <;> rfl), hr]
          have hne : r.module_id ≠ m := by
            rw [hid]; exact fun hc => hm hc.symm
          simp [hne]
  | applyDelta m d =>
      refine ⟨if r.module_id == m then
                { r with routing_weight := clampWeight (r.routing_weight + d) }
              else r, ?_, ?_⟩
      · simp only [runOp]
        unfold apply_weight_delta
        rw [resolve_map _ (by intro r2; split <;> rfl), hr]
        rfl
      · split <;> simpa using hs

/-- Status preservation over a whole sequence of untargeted operations. -/
theorem statusUntouched_steps (ops : List RegOp) :
    ∀ (reg : Registry) (mid : String),
      ops.all (statusUntouched mid) = true →
      ∀ r, resolve reg mid = some r → r.status = .INITIALIZING →
      ∃ r2, resolve (runOps reg ops) mid = some r2 ∧
        r2.status = .INITIALIZING := by
  induction ops with
  | nil => exact fun reg mid _ r hr hs => ⟨r, hr, hs⟩
  | cons op ops ih =>
      intro reg mid hops r hr hs
      simp only [List.all_cons, Bool.and_eq_true] at hops
      obtain ⟨r2, hr2, hs2⟩ := statusUntouched_step reg mid op hops.1 r hr hs
      exact ih (runOp reg op) mid hops.2 r2 hr2 hs2

/-- Claim C6 counterexample: the spec's own state machine legalizes
`initializing → error`, so a module can be resolved in a status other
than `initializing` after `register` and before any `announce_ready`:
after `register("A")` followed by `update_status("A", error)` — with
`announce_ready` never called — `resolve("A")` reports status `error`. -/
theorem c6_counterexample :
    (resolve (runOps [] [.registerOp "A" "mod-a" "1.0" [],
                         .updateStatus "A" .ERROR]) "A").map
        ModuleRecord.status = some .ERROR := rfl

/-- Claim C6 (amended): `resolve` after `register` returns a record in
status `initializing`, and the status remains `initializing` under every
sequence of registry operations that contains no `announce_ready` or
`update_status` targeting that module; and a newly constructed `AIModule`
starts in status `INITIALIZING`. -/
theorem c6_amended_initializing_until_touched
    (reg reg' : Registry) (mid nm ver : String) (caps : List String)
    (ops : List RegOp) (i n v : String) (now : DateTime)
    (hreg : register reg mid nm ver caps = .ok reg')
    (hops : ops.all (statusUntouched mid) = true) :
    (∃ r, resolve (runOps reg' ops) mid = some r ∧
      r.status = .INITIALIZING) ∧
    (AIModule.init i n v now).status = .INITIALIZING := by
  refine ⟨?_, rfl⟩
  exact statusUntouched_steps ops reg' mid hops _ (resolve_register_ok hreg) rfl

/-- Witness for the amended C6 at a concrete registration and sequence. -/
theorem c6_amended_initializing_until_touched_witness :
    (∃ r, resolve (runOps
        [{ module_id := "A", name := "mod-a", version := "1.0",
           status := .INITIALIZING, capabilities := [],
           routing_weight := 1 }]
        [.applyDelta "A" 2, .registerOp "B" "mod-b" "1.0" [],
         .updateStatus "B" .ERROR]) "A" = some r ∧
      r.status = .INITIALIZING) ∧
    (AIModule.init "A" "mod-a" "1.0" sampleNow).status = .INITIALIZING :=
  c6_amended_initializing_until_touched [] _ "A" "mod-a" "1.0" [] _
    "A" "mod-a" "1.0" sampleNow rfl rfl

/-- Claim C7: for every registered module, a requested status transition
outside the legal set fails with `InvalidTransition` and leaves the
module's status (indeed the whole registry) unchanged. -/
theorem c7_illegal_transition_rejected (reg : Registry) (mid : String)
    (st : ModuleStatus) (r : ModuleRecord)
    (hr : resolve reg mid = some r)
    (hil : legalTransition r.status st = false) :
    update_status reg mid st = .error .InvalidTransition ∧
    runOp reg (.updateStatus mid st) = reg ∧
    (resolve (runOp reg (.updateStatus mid st)) mid).map
      ModuleRecord.status = some r.status := by
  have h1 : update_status reg mid st = .error .InvalidTransition := by
    unfold update_status
    rw [hr]
    dsimp only
    rw [if_neg (by rw [hil]; exact Bool.false_ne_true)]
  have h2 : runOp reg (.updateStatus mid st) = reg := by
    simp only [runOp, h1]
  exact ⟨h1, h2, by rw [h2, hr]; rfl⟩

/-- Witness for C7: the spec's own example `offline → ready`. -/
theorem c7_illegal_transition_rejected_witness :
    update_status
        [{ module_id := "A", name := "mod-a", version := "1.0",
           status := .OFFLINE, capabilities := [], routing_weight := 1 }]
        "A" .READY = .error .InvalidTransition ∧
    runOp
        [{ module_id := "A", name := "mod-a", version := "1.0",
           status := .OFFLINE, capabilities := [], routing_weight := 1 }]
        (.updateStatus "A" .READY) =
      [{ module_id := "A", name := "mod-a", version := "1.0",
         status := .OFFLINE, capabilities := [], routing_weight := 1 }] ∧
    (resolve (runOp
        [{ module_id := "A", name := "mod-a", version := "1.0",
           status := .OFFLINE, capabilities := [], routing_weight := 1 }]
        (.updateStatus "A" .READY)) "A").map ModuleRecord.status =
      some ({ module_id := "A", name := "mod-a", version := "1.0",
              status := .OFFLINE, capabilities := [],
              routing_weight := 1 } : ModuleRecord).status :=
  c7_illegal_transition_rejected _ "A" .READY _ rfl rfl

/-- The clamp really lands in [0.01, 10]. -/
theorem clampWeight_mem (w : ℚ) :
    1 / 100 ≤ clampWeight w ∧ clampWeight w ≤ 10 := by
  unfold clampWeight
  split_ifs with h1 h2
  · constructor <;> norm_num
  · constructor <;> norm_num
  · constructor <;> [linarith; linarith]

/-- Weight-bound preservation over a fold of `apply_weight_delta`. -/
theorem weight_inv_foldl (ds : List ℚ) :
    ∀ (reg : Registry) (mid : String) r,
      resolve reg mid = some r →
      1 / 100 ≤ r.routing_weight ∧ r.routing_weight ≤ 10 →
      ∃ r2, resolve (ds.foldl (fun acc d => apply_weight_delta acc mid d) reg)
          mid = some r2 ∧
        1 / 100 ≤ r2.routing_weight ∧ r2.routing_weight ≤ 10 := by
  induction ds with
  | nil => exact fun reg mid r hr hb => ⟨r, hr, hb⟩
  | cons d ds ih =>
      intro reg mid r hr hb
      refine ih (apply_weight_delta reg mid d) mid
        (if r.module_id == mid then
          { r with routing_weight := clampWeight (r.routing_weight + d) }
         else r) ?_ ?_
      · unfold apply_weight_delta
        rw [resolve_map _ (by intro r2; split <;> rfl), hr]
        rfl
      · split
        · exact clampWeight_mem _
        · exact hb

/-- Claim C8: for every module registered with the default routing weight
1.0 and every finite sequence of `apply_weight_delta` calls with
arbitrary (rational) deltas, the module's `routing_weight` after the
sequence lies within [0.01, 10.0]. -/
theorem c8_weight_stays_clamped (reg : Registry)
    (mid nm ver : String) (caps : List String) (reg' : Registry)
    (ds : List ℚ) (r : ModuleRecord)
    (hreg : register reg mid nm ver caps = .ok reg')
    (hres : resolve (ds.foldl (fun acc d => apply_weight_delta acc mid d) reg')
        mid = some r) :
    1 / 100 ≤ r.routing_weight ∧ r.routing_weight ≤ 10 := by
  obtain ⟨r2, hr2, hb2⟩ := weight_inv_foldl ds reg' mid _
    (resolve_register_ok hreg) (by constructor <;> norm_num)
  rw [hres] at hr2
  rw [Option.some.inj hr2]
  exact hb2

/-- Witness for C8 at a concrete registration and delta sequence. -/
theorem c8_weight_stays_clamped_witness :
    1 / 100 ≤
      ({ module_id := "A", name := "mod-a", version := "1.0",
         status := .INITIALIZING, capabilities := [],
         routing_weight := 6 } : ModuleRecord).routing_weight ∧
    ({ module_id := "A", name := "mod-a", version := "1.0",
       status := .INITIALIZING, capabilities := [],
       routing_weight := 6 } : ModuleRecord).routing_weight ≤ 10 :=
  c8_weight_stays_clamped [] "A" "mod-a" "1.0" [] _ [(5 : ℚ)] _ rfl
    (by norm_num [apply_weight_delta, resolve, List.find?, clampWeight])

/-- Claim C10: `Message.to_json` is all-or-nothing: every successful
encoding is a JSON object carrying all ten envelope fields, and on a
well-typed message whose payload or metadata holds a value that is not
JSON-serializable it raises the underlying `TypeError` — it never
returns a fallback or partial encoding. -/
theorem c10_to_json_all_or_error :
    (∀ m j, Message.to_json m = .ok j → hasAllTenKeys j = true) ∧
    (∀ m, WellTypedMsg m = true →
      (serializable m.payload && serializable m.metadata) = false →
      Message.to_json m = .error .typeError) := by
  constructor
  · intro m j h
    obtain ⟨mid, sid, rid, mt, ts, pl, md, pr, rr, rto⟩ := m
    cases mt <;>
      simp only [Message.to_json, pyEnumValue, bind, Except.bind] at h <;>
      try exact absurd h (by simp)
    cases ts <;>
      simp only [pyIsoformat, bind, Except.bind] at h <;>
      try exact absurd h (by simp)
    split at h
    · obtain rfl := Except.ok.inj h
      rfl
    · exact absurd h (by simp)
  · intro m hty hser
    obtain ⟨mid, sid, rid, mt, ts, pl, md, pr, rr, rto⟩ := m
    simp only [WellTypedMsg, Bool.and_eq_true] at hty
    obtain ⟨⟨⟨⟨⟨⟨⟨⟨⟨h1, h2⟩, h3⟩, h4⟩, h5⟩, h6⟩, h7⟩, h8⟩, h9⟩, h10⟩ := hty
    obtain ⟨mids, rfl⟩ := isStrV_shape h1
    obtain ⟨sids, rfl⟩ := isStrV_shape h2
    obtain ⟨rids, rfl⟩ := isStrV_shape h3
    obtain ⟨t, rfl⟩ := isEnumV_shape h4
    obtain ⟨d, rfl⟩ := isDtV_shape h5
    obtain ⟨plk, rfl⟩ := isDictV_shape h6
    obtain ⟨mdk, rfl⟩ := isDictV_shape h7
    obtain ⟨pn, rfl⟩ := isIntV_shape h8
    obtain ⟨rb, rfl⟩ := isBoolV_shape h9
    simp only [serializable] at hser
    rcases isNoneOrStrV_shape h10 with h0 | ⟨rs, h0⟩ <;> subst h0 <;>
    · cases hA : serializableKVs plk with
      | false =>
          simp [Message.to_json, pyEnumValue, pyIsoformat, bind, Except.bind,
            serializable, serializableKVs, hA]
      | true =>
          have hB : serializableKVs mdk = false := by
            simpa [hA] using hser
          simp [Message.to_json, pyEnumValue, pyIsoformat, bind, Except.bind,
            serializable, serializableKVs, hA, hB]

/-- Witness for C10: a successful encoding carries all ten fields, and a
payload holding a datetime object makes `to_json` raise `TypeError`. -/
theorem c10_to_json_all_or_error_witness :
    hasAllTenKeys (.dict
      [("message_id", .str "f"),
       ("sender_id", .str ""),
       ("receiver_id", .str ""),
       ("message_type", .str "query"),
       ("timestamp", .str "20240101"),
       ("payload", .dict []),
       ("metadata", .dict []),
       ("priority", .int 1),
       ("requires_response", .bool false),
       ("response_to", .null)]) = true ∧
    Message.to_json c10Bad = .error .typeError :=
  ⟨c10_to_json_all_or_error.1 (Message.mkDefault "f" sampleNow) _ rfl,
   c10_to_json_all_or_error.2 c10Bad rfl rfl⟩

end AIE
